import Mathlib

/-!
Verification of the container-runtime client and lifecycle-update protocol
of the devops-dash repository (Go). The Go functions in `utils` (docker
client wrapper) and `controllers` (request handlers) are shallowly embedded:
each Docker daemon interaction becomes a field of an environment record
returning `Except String _`, stateful code passes state explicitly, and
every daemon call performed by a workflow is recorded in a trace of
`DockerAction`s so that temporal claims about the order of operations can
be stated.
-/

namespace Devops

/-- EndpointSettings entry of a container network attachment
(`containerInfo.NetworkSettings.Networks` values). -/
structure EndpointSettings where
  networkID : String
  ipAddress : String
deriving DecidableEq, Repr

/-- The container configuration captured by inspect and passed wholesale to
create (`containerInfo.Config`). The image reference is the field the
workflow reads; the remaining declarative settings are carried along. -/
structure ContainerConfig where
  image : String
  cmd : List String
  env : List String
deriving DecidableEq, Repr

/-- Host configuration captured by inspect (`containerInfo.HostConfig`). -/
structure HostConfig where
  networkMode : String
  binds : List String
deriving DecidableEq, Repr

/-- The network-attachment config reconstructed by the update workflow:
`network.NetworkingConfig{EndpointsConfig: containerInfo.NetworkSettings.Networks}`. -/
structure NetworkingConfig where
  endpointsConfig : List (String × EndpointSettings)
deriving DecidableEq, Repr

/-- Result of `cli.ContainerInspect`: the fields of `types.ContainerJSON`
that `UpdateContainerByID` reads. -/
structure ContainerInspectInfo where
  name : String
  config : ContainerConfig
  hostConfig : HostConfig
  networks : List (String × EndpointSettings)
deriving DecidableEq, Repr

/-- Result of `cli.ContainerCreate` (`container.CreateResponse`). -/
structure CreateResponse where
  id : String
deriving DecidableEq, Repr

/-- One daemon call issued by the lifecycle code, recorded in order. -/
inductive DockerAction where
  | inspect (id : String)
  | pull (image : String)
  | drainPullOutput (image : String)
  | create (cfg : ContainerConfig) (host : HostConfig) (net : NetworkingConfig) (name : String)
  | start (id : String)
  | remove (id : String) (force : Bool)
deriving DecidableEq, Repr

/-- The daemon as seen by the client: the response each endpoint would give.
Errors model daemon-reported failures (`RuntimeError`/`NotFoundError`). -/
structure DockerEnv where
  inspectRes : String → Except String ContainerInspectInfo
  pullRes : String → Except String Unit
  createRes : ContainerConfig → HostConfig → NetworkingConfig → String →
      Except String CreateResponse
  startRes : String → Except String Unit
  removeRes : String → Bool → Except String Unit

/-- Embedding of `StartContainerByID` (utils): starts the container, wrapping
any daemon error with context. Returns the result and the calls issued. -/
def StartContainerByID (env : DockerEnv) (containerID : String) :
    Except String Unit × List DockerAction :=
  match env.startRes containerID with
  | .error e => (.error ("failed to start container " ++ containerID ++ ": " ++ e),
      [.start containerID])
  | .ok _ => (.ok (), [.start containerID])

/-- Embedding of `DeleteContainerByID` (utils): force-removes the container
(`types.ContainerRemoveOptions{Force: true}`). -/
def DeleteContainerByID (env : DockerEnv) (containerID : String) :
    Except String Unit × List DockerAction :=
  match env.removeRes containerID true with
  | .error e => (.error ("failed to remove container " ++ containerID ++ ": " ++ e),
      [.remove containerID true])
  | .ok _ => (.ok (), [.remove containerID true])

/-- Embedding of `UpdateContainerByID` (utils): inspect, rebuild the network
config, pull the inspected image, drain the pull output, create a replacement
with the captured config under the original name, start it via
`StartContainerByID`, then remove the original via `DeleteContainerByID`.
Each phase returns the wrapped error on failure, exactly as the Go code. -/
def UpdateContainerByID (env : DockerEnv) (containerID : String) :
    Except String Unit × List DockerAction :=
  match env.inspectRes containerID with
  | .error e => (.error ("failed to get container " ++ containerID ++ " info: " ++ e),
      [.inspect containerID])
  | .ok containerInfo =>
    let networkConfig : NetworkingConfig := { endpointsConfig := containerInfo.networks }
    match env.pullRes containerInfo.config.image with
    | .error e =>
        (.error ("failed to pull image " ++ containerInfo.config.image ++ ": " ++ e),
         [.inspect containerID, .pull containerInfo.config.image])
    | .ok _ =>
      match env.createRes containerInfo.config containerInfo.hostConfig networkConfig
          containerInfo.name with
      | .error e =>
          (.error ("failed to create container from image " ++ containerInfo.config.image
              ++ ": " ++ e),
           [.inspect containerID, .pull containerInfo.config.image,
            .drainPullOutput containerInfo.config.image,
            .create containerInfo.config containerInfo.hostConfig networkConfig
              containerInfo.name])
      | .ok resp =>
        let startStep := StartContainerByID env resp.id
        let headTrace : List DockerAction :=
          [.inspect containerID, .pull containerInfo.config.image,
           .drainPullOutput containerInfo.config.image,
           .create containerInfo.config containerInfo.hostConfig networkConfig
             containerInfo.name]
        match startStep with
        | (.error e, tr) => (.error e, headTrace ++ tr)
        | (.ok _, tr) =>
          match DeleteContainerByID env containerID with
          | (.error e, tr2) => (.error e, headTrace ++ tr ++ tr2)
          | (.ok _, tr2) => (.ok (), headTrace ++ tr ++ tr2)

/-! Stats: embedding of `GetContainerStatsByID` output (`types.StatsJSON`,
the fields the `GetStats` controller reads) and the derived metrics. Go
`float64` arithmetic is modelled by `GoFloat`: finite values are exact
rationals (an idealisation of IEEE 754 rounding) and the special values
NaN and the two infinities follow IEEE 754, which is exact for the
division-by-zero and zero-over-zero cases the claims are about. -/

/-- Cumulative CPU usage counter (`stats.CPUStats.CPUUsage`). -/
structure CPUUsage where
  totalUsage : Nat
deriving DecidableEq, Repr

/-- CPU stats of one snapshot (`stats.CPUStats`). -/
structure CPUStats where
  cpuUsage : CPUUsage
  systemUsage : Nat
deriving DecidableEq, Repr

/-- Memory stats of one snapshot (`stats.MemoryStats`). -/
structure MemoryStats where
  usage : Nat
  limit : Nat
deriving DecidableEq, Repr

/-- Per-interface network counters (`types.NetworkStats`). -/
structure NetworkStats where
  rxBytes : Nat
  txBytes : Nat
deriving DecidableEq, Repr

/-- A decoded stats snapshot (`types.StatsJSON`): the Go map
`stats.Networks` is an association list keyed by interface name. -/
structure StatsJSON where
  cpuStats : CPUStats
  memoryStats : MemoryStats
  networks : List (String × NetworkStats)
deriving DecidableEq, Repr

/-- Go map read `m[k]`: the zero value of the element type when the key is
absent, exactly as Go semantics prescribe (no error, no panic). -/
def goMapLookupNetwork (m : List (String × NetworkStats)) (k : String) : NetworkStats :=
  match m.find? (fun p => p.fst == k) with
  | some p => p.snd
  | none => { rxBytes := 0, txBytes := 0 }

/-- A Go `float64` value: an exact rational when finite, or one of the
IEEE 754 special values. -/
inductive GoFloat where
  | finite (q : ℚ)
  | posInf
  | negInf
  | nan
deriving DecidableEq, Repr

/-- Conversion `float64(n)` of a nonnegative integer counter. -/
def GoFloat.ofNat (n : Nat) : GoFloat := .finite (n : ℚ)

/-- Go `float64` division with the IEEE 754 special cases: `0/0` is NaN,
`x/0` for nonzero `x` is a signed infinity, division by an infinity gives
zero, infinity over infinity is NaN. -/
def GoFloat.div : GoFloat → GoFloat → GoFloat
  | .nan, _ => .nan
  | _, .nan => .nan
  | .finite a, .finite b =>
      if b = 0 then (if a = 0 then .nan else if 0 < a then .posInf else .negInf)
      else .finite (a / b)
  | .posInf, .finite b => if 0 ≤ b then .posInf else .negInf
  | .negInf, .finite b => if 0 ≤ b then .negInf else .posInf
  | .finite _, .posInf => .finite 0
  | .finite _, .negInf => .finite 0
  | .posInf, _ => .nan
  | .negInf, _ => .nan

/-- Go `float64` multiplication with the IEEE 754 special cases: NaN
propagates, infinity times zero is NaN, otherwise signs combine. -/
def GoFloat.mul : GoFloat → GoFloat → GoFloat
  | .nan, _ => .nan
  | _, .nan => .nan
  | .finite a, .finite b => .finite (a * b)
  | .posInf, .posInf => .posInf
  | .posInf, .negInf => .negInf
  | .negInf, .posInf => .negInf
  | .negInf, .negInf => .posInf
  | .posInf, .finite b => if b = 0 then .nan else if 0 < b then .posInf else .negInf
  | .finite a, .posInf => if a = 0 then .nan else if 0 < a then .posInf else .negInf
  | .negInf, .finite b => if b = 0 then .nan else if 0 < b then .negInf else .posInf
  | .finite a, .negInf => if a = 0 then .nan else if 0 < a then .negInf else .posInf

/-- The metrics derived by the `GetStats` controller from one snapshot. -/
structure ContainerStatsView where
  cpu : GoFloat
  memoryUsageMB : GoFloat
  memoryLimitMB : GoFloat
  networkRxMB : GoFloat
  networkTxMB : GoFloat
deriving DecidableEq, Repr

/-- Embedding of the derivation in the `GetStats` controller:
`cpuUsage = float64(TotalUsage) / float64(SystemUsage) * 100`,
memory counters divided by `1024*1024`, and the network counters of
`stats.Networks["eth0"]` divided by `1024*1024`. -/
def GetStats (stats : StatsJSON) : ContainerStatsView :=
  let cpuUsage := GoFloat.mul
    (GoFloat.div (GoFloat.ofNat stats.cpuStats.cpuUsage.totalUsage)
      (GoFloat.ofNat stats.cpuStats.systemUsage))
    (GoFloat.ofNat 100)
  let memoryUsage := GoFloat.div (GoFloat.ofNat stats.memoryStats.usage)
    (GoFloat.ofNat (1024 * 1024))
  let memoryLimit := GoFloat.div (GoFloat.ofNat stats.memoryStats.limit)
    (GoFloat.ofNat (1024 * 1024))
  let eth0 := goMapLookupNetwork stats.networks "eth0"
  let networkRxBytes := GoFloat.div (GoFloat.ofNat eth0.rxBytes)
    (GoFloat.ofNat (1024 * 1024))
  let networkTxBytes := GoFloat.div (GoFloat.ofNat eth0.txBytes)
    (GoFloat.ofNat (1024 * 1024))
  { cpu := cpuUsage, memoryUsageMB := memoryUsage, memoryLimitMB := memoryLimit,
    networkRxMB := networkRxBytes, networkTxMB := networkTxBytes }

/-- CPU percentage as the spec words it: total usage delta over system usage
delta, times 100 (the two counters of the snapshot are the daemon-computed
deltas relative to its history window). -/
def cpuPercentSpec (total system : Nat) : ℚ := ((total : ℚ) / (system : ℚ)) * 100

/-- Megabyte conversion as the spec words it: raw byte counter divided by
1,048,576. -/
def bytesToMBSpec (bytes : Nat) : ℚ := (bytes : ℚ) / 1048576

/-! Container listing: embedding of `ListContainers` (utils) and the
`GetContainers` controller mapping. -/

/-- Port record of a raw daemon container entry (`types.Port`). -/
structure RawPort where
  ip : String
  privatePort : Nat
  publicPort : Nat
  protocol : String
deriving DecidableEq, Repr

/-- A raw container record as returned by the daemon list endpoint
(`types.Container`, the fields the controller reads). `networks` maps
network name to network ID, `mounts` holds source/destination pairs. -/
structure RawContainer where
  id : String
  names : List String
  image : String
  imageID : String
  command : String
  created : Int
  state : String
  status : String
  ports : List RawPort
  sizeRw : Int
  sizeRootFs : Int
  networkMode : String
  networks : List (String × String)
  mounts : List (String × String)
  labels : List (String × String)
deriving DecidableEq, Repr

/-- The option record passed to the daemon list endpoint
(`types.ContainerListOptions`, the `All` field). -/
structure ContainerListOptions where
  all : Bool
deriving DecidableEq, Repr

/-- The daemon list endpoint (`cli.ContainerList`), per the documented Docker
Engine API semantics of the `all` flag: only running containers are returned
unless `all` is true. -/
def dockerContainerList (daemon : List RawContainer) (opts : ContainerListOptions) :
    List RawContainer :=
  if opts.all then daemon else daemon.filter (fun c => c.state == "running")

/-- Embedding of `ListContainers` (utils): calls the daemon list endpoint
with the zero-value options `types.ContainerListOptions{}`, whose `All`
field is `false`. -/
def ListContainers (daemon : List RawContainer) : Except String (List RawContainer) :=
  .ok (dockerContainerList daemon { all := false })

/-- Go `strings.TrimPrefix(s, "/")`: drop the leading slash when present. -/
def goTrimLeadingSlash (s : String) : String :=
  if s.startsWith "/" then s.drop 1 else s

/-- Go `strings.TrimSuffix(s, ",")`: drop the trailing comma when present. -/
def goTrimTrailingComma (s : String) : String :=
  if s.endsWith "," then s.dropRight 1 else s

/-- The summary built by the `GetContainers` controller for one record. -/
structure ContainerView where
  id : String
  name : String
  image : String
  imageID : String
  command : String
  created : Int
  state : String
  status : String
  ports : List RawPort
  sizeRw : Int
  sizeRootFs : Int
  networkMode : String
  networkSettings : List String
  mounts : String
  labels : List (String × String)
deriving DecidableEq, Repr

/-- The per-record body of the `GetContainers` loop. The Go code reads
`container.Names[0]` unconditionally; on an empty names list that access
panics (index out of range), modelled as `none`. -/
def mapRawContainer (c : RawContainer) : Option ContainerView :=
  match c.names with
  | [] => none
  | n :: _ =>
    some { id := c.id
           name := goTrimLeadingSlash n
           image := c.image
           imageID := c.imageID
           command := c.command
           created := c.created
           state := c.state
           status := c.status
           ports := c.ports
           sizeRw := c.sizeRw
           sizeRootFs := c.sizeRootFs
           networkMode := c.networkMode
           networkSettings := c.networks.map Prod.snd
           mounts := goTrimTrailingComma
             (c.mounts.foldl (fun acc m => acc ++ m.fst ++ ":" ++ m.snd ++ ",") "")
           labels := c.labels }

/-- Embedding of the `GetContainers` controller loop over the records the
daemon returned: builds one summary per record in order, faulting (`none`)
as soon as a record with an empty names list is reached. -/
def GetContainers : List RawContainer → Option (List ContainerView)
  | [] => some []
  | c :: rest =>
    match mapRawContainer c with
    | none => none
    | some v =>
      match GetContainers rest with
      | none => none
      | some vs => some (v :: vs)

/-! Stop: embedding of `StopContainerByID` (utils). -/

/-- Go `time.Second`: one second as a `time.Duration`, i.e. 1e9 nanoseconds. -/
def timeSecond : Int := 1000000000

/-- The value `int(time.Second * 10)` computed by `StopContainerByID` and
passed as the stop timeout. -/
def stopTimeout : Int := 10 * timeSecond

/-- The options passed to the daemon stop endpoint
(`container.StopOptions`); `timeout` is the grace period in seconds the
daemon waits before killing the process, `none` meaning the daemon default. -/
structure StopOptions where
  timeout : Option Int
deriving DecidableEq, Repr

/-- The stop request sent to the runtime: container ID plus options. -/
structure StopRequest where
  containerID : String
  options : StopOptions
deriving DecidableEq, Repr

/-- The daemon stop endpoint as seen by the client. -/
structure StopEnv where
  stopRes : String → StopOptions → Except String Unit

/-- Embedding of `StopContainerByID` (utils): builds
`StopOptions{Timeout: &timeout}` with `timeout := int(time.Second * 10)`
and issues the stop request, wrapping any daemon error. Returns the result
and the request that was sent. -/
def StopContainerByID (env : StopEnv) (containerID : String) :
    Except String Unit × StopRequest :=
  let stopOpts : StopOptions := { timeout := some stopTimeout }
  (match env.stopRes containerID stopOpts with
   | .error e => .error ("failed to stop container " ++ containerID ++ ": " ++ e)
   | .ok _ => .ok (),
   { containerID := containerID, options := stopOpts })

/-! Connect: embedding of `ConnectToDocker` (utils). The package-level
variable `cli` is the explicit state `Option DockerClient` (`none` = nil). -/

/-- Opaque identity of a created docker client handle. -/
structure DockerClient where
  handle : Nat
deriving DecidableEq, Repr

/-- The environment of one connect attempt: outcome of loading the client
keypair, of reading the CA certificate, of client construction, and of the
liveness ping against the daemon. -/
structure ConnectEnv where
  loadKeyPair : Except String Unit
  readCACert : Except String String
  newClient : Except String DockerClient
  ping : DockerClient → Except String Unit

/-- Embedding of `ConnectToDocker` (utils): load the keypair, read the CA
certificate, construct the client — the assignment `cli, err = ...` writes
the package-level handle before the ping, `nil` on construction failure —
then ping the daemon. Returns the result and the final value of `cli`. -/
def ConnectToDocker (env : ConnectEnv) (cli : Option DockerClient) :
    Except String Unit × Option DockerClient :=
  match env.loadKeyPair with
  | .error e => (.error ("failed to load client certificate and key: " ++ e), cli)
  | .ok _ =>
    match env.readCACert with
    | .error e => (.error ("failed to read CA certificate: " ++ e), cli)
    | .ok _ =>
      match env.newClient with
      | .error e => (.error ("failed to create Docker client: " ++ e), none)
      | .ok c =>
        match env.ping c with
        | .error e => (.error ("failed to ping Docker daemon: " ++ e), some c)
        | .ok _ => (.ok (), some c)

/-! Concrete fixtures used by witnesses and counterexamples. -/

/-- A concrete inspect result for a container named `/web` running
`app:latest`. -/
def demoInfo : ContainerInspectInfo :=
  { name := "/web"
    config := { image := "app:latest", cmd := ["./run"], env := ["PORT=80"] }
    hostConfig := { networkMode := "bridge", binds := ["/data:/data"] }
    networks := [("bridge", { networkID := "n1", ipAddress := "172.17.0.2" })] }

/-- A daemon in which every endpoint succeeds; inspect knows `abc123`. -/
def demoEnvOk : DockerEnv :=
  { inspectRes := fun i => if i = "abc123" then .ok demoInfo else .error "no such container"
    pullRes := fun _ => .ok ()
    createRes := fun _ _ _ _ => .ok { id := "new789" }
    startRes := fun _ => .ok ()
    removeRes := fun _ _ => .ok () }

/-- A daemon whose inspect endpoint fails. -/
def demoEnvInspectFail : DockerEnv :=
  { inspectRes := fun _ => .error "boom"
    pullRes := fun _ => .ok ()
    createRes := fun _ _ _ _ => .ok { id := "new789" }
    startRes := fun _ => .ok ()
    removeRes := fun _ _ => .ok () }

/-- A daemon whose pull endpoint fails after a successful inspect. -/
def demoEnvPullFail : DockerEnv :=
  { inspectRes := fun _ => .ok demoInfo
    pullRes := fun _ => .error "manifest unknown"
    createRes := fun _ _ _ _ => .ok { id := "new789" }
    startRes := fun _ => .ok ()
    removeRes := fun _ _ => .ok () }

/-- C1: in the `UpdateContainerByID` recreate workflow, the original
container is force-deleted only after the replacement was created and
started successfully: whenever a removal appears in the trace, inspect,
pull, create and start all succeeded, the removal targets the original
container with the force flag, and it is the last call of the whole
ordered trace. Contrapositive: an execution in which inspect, pull,
create, or start fails performs no removal. -/
theorem updateContainer_remove_only_after_start (env : DockerEnv) (id rid : String)
    (force : Bool)
    (h : DockerAction.remove rid force ∈ (UpdateContainerByID env id).snd) :
    rid = id ∧ force = true ∧
    ∃ info resp,
      env.inspectRes id = .ok info ∧
      env.pullRes info.config.image = .ok () ∧
      env.createRes info.config info.hostConfig { endpointsConfig := info.networks }
        info.name = .ok resp ∧
      env.startRes resp.id = .ok () ∧
      (UpdateContainerByID env id).snd =
        [.inspect id, .pull info.config.image, .drainPullOutput info.config.image,
         .create info.config info.hostConfig { endpointsConfig := info.networks } info.name,
         .start resp.id, .remove id true] := by
  cases hI : env.inspectRes id with
  | error e => simp [UpdateContainerByID, hI] at h
  | ok info =>
    cases hP : env.pullRes info.config.image with
    | error e => simp [UpdateContainerByID, hI, hP] at h
    | ok u =>
      cases u
      cases hC : env.createRes info.config info.hostConfig
          { endpointsConfig := info.networks } info.name with
      | error e => simp [UpdateContainerByID, hI, hP, hC] at h
      | ok resp =>
        cases hS : env.startRes resp.id with
        | error e =>
          simp [UpdateContainerByID, StartContainerByID, hI, hP, hC, hS] at h
        | ok v =>
          cases v
          cases hR : env.removeRes id true with
          | error e =>
            simp [UpdateContainerByID, StartContainerByID, DeleteContainerByID,
              hI, hP, hC, hS, hR] at h
            exact ⟨h.1, h.2, info, resp, rfl, hP, hC, hS, by
              simp [UpdateContainerByID, StartContainerByID, DeleteContainerByID,
                hI, hP, hC, hS, hR]⟩
          | ok w =>
            cases w
            simp [UpdateContainerByID, StartContainerByID, DeleteContainerByID,
              hI, hP, hC, hS, hR] at h
            exact ⟨h.1, h.2, info, resp, rfl, hP, hC, hS, by
              simp [UpdateContainerByID, StartContainerByID, DeleteContainerByID,
                hI, hP, hC, hS, hR]⟩

/-- Witness for C1 at a fully successful execution on container `abc123`. -/
theorem updateContainer_remove_only_after_start_witness :
    "abc123" = "abc123" ∧ true = true ∧
    ∃ info resp,
      demoEnvOk.inspectRes "abc123" = .ok info ∧
      demoEnvOk.pullRes info.config.image = .ok () ∧
      demoEnvOk.createRes info.config info.hostConfig
        { endpointsConfig := info.networks } info.name = .ok resp ∧
      demoEnvOk.startRes resp.id = .ok () ∧
      (UpdateContainerByID demoEnvOk "abc123").snd =
        [.inspect "abc123", .pull info.config.image, .drainPullOutput info.config.image,
         .create info.config info.hostConfig { endpointsConfig := info.networks } info.name,
         .start resp.id, .remove "abc123" true] :=
  updateContainer_remove_only_after_start demoEnvOk "abc123" "abc123" true (by decide)

/-- C8: a failure of the inspect phase or of the pull phase of
`UpdateContainerByID` aborts with no side effects: the workflow returns the
wrapped error and the trace holds only the failed call (and, for a pull
failure, the preceding inspect) — no drain of image content, no create, no
start, no removal. -/
theorem updateContainer_early_failure_no_side_effects (env : DockerEnv) (id : String) :
    (∀ e, env.inspectRes id = .error e →
      UpdateContainerByID env id =
        (.error ("failed to get container " ++ id ++ " info: " ++ e),
         [.inspect id])) ∧
    (∀ info e, env.inspectRes id = .ok info →
        env.pullRes info.config.image = .error e →
      UpdateContainerByID env id =
        (.error ("failed to pull image " ++ info.config.image ++ ": " ++ e),
         [.inspect id, .pull info.config.image])) := by
  constructor
  · intro e hI
    simp [UpdateContainerByID, hI]
  · intro info e hI hP
    simp [UpdateContainerByID, hI, hP]

/-- Witness for C8: inspect failure and pull failure on concrete daemons. -/
theorem updateContainer_early_failure_no_side_effects_witness :
    UpdateContainerByID demoEnvInspectFail "c1" =
      (.error ("failed to get container " ++ "c1" ++ " info: " ++ "boom"),
       [.inspect "c1"]) ∧
    UpdateContainerByID demoEnvPullFail "c1" =
      (.error ("failed to pull image " ++ demoInfo.config.image ++ ": "
          ++ "manifest unknown"),
       [.inspect "c1", .pull demoInfo.config.image]) :=
  ⟨(updateContainer_early_failure_no_side_effects demoEnvInspectFail "c1").1 "boom" rfl,
   (updateContainer_early_failure_no_side_effects demoEnvPullFail "c1").2 demoInfo
     "manifest unknown" rfl rfl⟩

/-- C9: after a successful inspect, every pull in the trace pulls exactly
the image reference the inspect recorded, and every create in the trace
uses the captured image config, the captured host config, the network
config rebuilt from the captured attachments, and the original name. -/
theorem updateContainer_preserves_config (env : DockerEnv) (id : String)
    (info : ContainerInspectInfo) (hI : env.inspectRes id = .ok info) :
    (∀ img, DockerAction.pull img ∈ (UpdateContainerByID env id).snd →
      img = info.config.image) ∧
    (∀ cfg host net nm,
      DockerAction.create cfg host net nm ∈ (UpdateContainerByID env id).snd →
      cfg = info.config ∧ host = info.hostConfig ∧
      net = { endpointsConfig := info.networks } ∧ nm = info.name) := by
  cases hP : env.pullRes info.config.image with
  | error e =>
    constructor
    · intro img h
      simp [UpdateContainerByID, hI, hP] at h
      exact h
    · intro cfg host net nm h
      simp [UpdateContainerByID, hI, hP] at h
  | ok u =>
    cases u
    cases hC : env.createRes info.config info.hostConfig
        { endpointsConfig := info.networks } info.name with
    | error e =>
      constructor
      · intro img h
        simp [UpdateContainerByID, hI, hP, hC] at h
        exact h
      · intro cfg host net nm h
        simp [UpdateContainerByID, hI, hP, hC] at h
        exact ⟨h.1, h.2.1, h.2.2.1, h.2.2.2⟩
    | ok resp =>
      cases hS : env.startRes resp.id with
      | error e =>
        constructor
        · intro img h
          simp [UpdateContainerByID, StartContainerByID, hI, hP, hC, hS] at h
          exact h
        · intro cfg host net nm h
          simp [UpdateContainerByID, StartContainerByID, hI, hP, hC, hS] at h
          exact ⟨h.1, h.2.1, h.2.2.1, h.2.2.2⟩
      | ok v =>
        cases v
        cases hR : env.removeRes id true with
        | error e =>
          constructor
          · intro img h
            simp [UpdateContainerByID, StartContainerByID, DeleteContainerByID,
              hI, hP, hC, hS, hR] at h
            exact h
          · intro cfg host net nm h
            simp [UpdateContainerByID, StartContainerByID, DeleteContainerByID,
              hI, hP, hC, hS, hR] at h
            exact ⟨h.1, h.2.1, h.2.2.1, h.2.2.2⟩
        | ok w =>
          cases w
          constructor
          · intro img h
            simp [UpdateContainerByID, StartContainerByID, DeleteContainerByID,
              hI, hP, hC, hS, hR] at h
            exact h
          · intro cfg host net nm h
            simp [UpdateContainerByID, StartContainerByID, DeleteContainerByID,
              hI, hP, hC, hS, hR] at h
            exact ⟨h.1, h.2.1, h.2.2.1, h.2.2.2⟩

/-- Witness for C9: on the successful demo daemon the pull in the trace
pulls the image recorded by inspect. -/
theorem updateContainer_preserves_config_witness :
    "app:latest" = demoInfo.config.image :=
  (updateContainer_preserves_config demoEnvOk "abc123" demoInfo (by rfl)).1
    "app:latest" (by decide)

/-- A concrete running container record. -/
def runningContainer : RawContainer :=
  { id := "c1", names := ["/web"], image := "app:latest", imageID := "sha256:aaa"
    command := "./run", created := 1700000000, state := "running"
    status := "Up 5 minutes"
    ports := [{ ip := "0.0.0.0", privatePort := 80, publicPort := 8080, protocol := "tcp" }]
    sizeRw := 12, sizeRootFs := 345, networkMode := "bridge"
    networks := [("bridge", "n1")], mounts := [("/data", "/data")]
    labels := [("app", "web")] }

/-- A concrete exited container record. -/
def exitedContainer : RawContainer :=
  { id := "c2", names := ["/old"], image := "app:1.0", imageID := "sha256:bbb"
    command := "./run", created := 1690000000, state := "exited"
    status := "Exited (0) 2 days ago", ports := [], sizeRw := 0, sizeRootFs := 345
    networkMode := "bridge", networks := [("bridge", "n1")], mounts := []
    labels := [] }

/-- A concrete container record whose names list is empty. -/
def noNamesContainer : RawContainer :=
  { id := "c3", names := [], image := "app:latest", imageID := "sha256:ccc"
    command := "./run", created := 1700000100, state := "running"
    status := "Up 1 minute", ports := [], sizeRw := 0, sizeRootFs := 345
    networkMode := "bridge", networks := [], mounts := [], labels := [] }

/-- Counterexample to C3: a daemon holding a running and an exited container;
`ListContainers` returns only the running one, so the exited container known
to the daemon is missing from the result. -/
theorem listContainers_excludes_exited :
    exitedContainer ∈ [runningContainer, exitedContainer] ∧
    ListContainers [runningContainer, exitedContainer] = .ok [runningContainer] ∧
    exitedContainer ∉ [runningContainer] :=
  ⟨by decide, rfl, by decide⟩

/-- C3 amended: `ListContainers` issues the list request with the
zero-value options, whose all-containers flag is false, so the daemon
returns exactly the containers in the running state; stopped and exited
containers are omitted. -/
theorem listContainers_mem_iff_running (daemon : List RawContainer)
    (c : RawContainer) (res : List RawContainer)
    (h : ListContainers daemon = .ok res) :
    c ∈ res ↔ c ∈ daemon ∧ c.state = "running" := by
  simp only [ListContainers, Except.ok.injEq] at h
  subst h
  simp [dockerContainerList, List.mem_filter]

/-- Witness for C3 amended at a concrete daemon. -/
theorem listContainers_mem_iff_running_witness :
    runningContainer ∈ [runningContainer] ↔
      runningContainer ∈ [runningContainer, exitedContainer] ∧
      runningContainer.state = "running" :=
  listContainers_mem_iff_running [runningContainer, exitedContainer]
    runningContainer [runningContainer] rfl

/-- C10: the `GetContainers` mapping reads the first element of each raw
record's names list unconditionally, so a response containing a record with
an empty names list makes the operation fault (modelled `none`) instead of
returning summaries or an error value. -/
theorem getContainers_empty_names_faults (pre post : List RawContainer)
    (c : RawContainer) (h : c.names = []) :
    GetContainers (pre ++ c :: post) = none := by
  induction pre with
  | nil => simp [GetContainers, mapRawContainer, h]
  | cons x xs ih =>
    rw [List.cons_append]
    simp only [GetContainers, ih]
    cases mapRawContainer x <;> rfl

/-- Witness for C10: a response with a well-formed record followed by a
record with no names faults. -/
theorem getContainers_empty_names_faults_witness :
    GetContainers ([runningContainer] ++ noNamesContainer :: []) = none :=
  getContainers_empty_names_faults [runningContainer] [] noNamesContainer rfl

/-- C4 (code bug): the grace period sent with every stop request is
`int(time.Second * 10)`, the integer 10,000,000,000 (ten seconds in
nanoseconds reinterpreted as seconds), not 10 seconds. -/
theorem stopContainer_timeout_value (env : StopEnv) (id : String) :
    (StopContainerByID env id).snd.options.timeout = some (10 * timeSecond) ∧
    (StopContainerByID env id).snd.options.timeout = some 10000000000 ∧
    (StopContainerByID env id).snd.options.timeout ≠ some 10 := by
  refine ⟨rfl, rfl, ?_⟩
  simp [StopContainerByID, stopTimeout, timeSecond]

/-- A connect environment in which certificate loading, CA reading and
client construction succeed and the liveness ping fails. -/
def pingFailEnv : ConnectEnv :=
  { loadKeyPair := .ok ()
    readCACert := .ok "pem-bytes"
    newClient := .ok { handle := 1 }
    ping := fun _ => .error "context deadline exceeded" }

/-- Counterexample to C5: on a failed ping the connect attempt returns an
error as a whole, yet the process-wide handle has already been installed by
the assignment preceding the ping and is left in place. -/
theorem connect_ping_failure_counterexample :
    (ConnectToDocker pingFailEnv none).fst =
      .error ("failed to ping Docker daemon: " ++ "context deadline exceeded") ∧
    (ConnectToDocker pingFailEnv none).snd = some { handle := 1 } ∧
    (ConnectToDocker pingFailEnv none).snd ≠ none :=
  ⟨rfl, rfl, by decide⟩

/-- C5 amended: whenever the keypair loads, the CA certificate reads, the
client is constructed and only the ping fails, the connect operation as a
whole fails, but the newly created client is already installed as the
process-wide handle before the ping and remains installed afterwards. -/
theorem connect_ping_failure_installs_handle (env : ConnectEnv)
    (st : Option DockerClient) (c : DockerClient) (e s : String)
    (hload : env.loadKeyPair = .ok ()) (hca : env.readCACert = .ok s)
    (hnew : env.newClient = .ok c) (hping : env.ping c = .error e) :
    (ConnectToDocker env st).fst = .error ("failed to ping Docker daemon: " ++ e) ∧
    (ConnectToDocker env st).snd = some c := by
  simp [ConnectToDocker, hload, hca, hnew, hping]

/-- Witness for C5 amended at the concrete failing-ping environment. -/
theorem connect_ping_failure_installs_handle_witness :
    (ConnectToDocker pingFailEnv none).fst =
      .error ("failed to ping Docker daemon: " ++ "context deadline exceeded") ∧
    (ConnectToDocker pingFailEnv none).snd = some { handle := 1 } :=
  connect_ping_failure_installs_handle pingFailEnv none { handle := 1 }
    "context deadline exceeded" "pem-bytes" rfl rfl rfl rfl

/-- A concrete snapshot whose network map lacks the fixed interface name
`eth0` (only `lo` is present, with nonzero counters). -/
def statsNoEth0 : StatsJSON :=
  { cpuStats := { cpuUsage := { totalUsage := 400 }, systemUsage := 4000 }
    memoryStats := { usage := 1048576, limit := 2097152 }
    networks := [("lo", { rxBytes := 12345, txBytes := 67890 })] }

/-- A concrete well-formed snapshot with `eth0` present. -/
def statsDemo : StatsJSON :=
  { cpuStats := { cpuUsage := { totalUsage := 400 }, systemUsage := 4000 }
    memoryStats := { usage := 1048576, limit := 2097152 }
    networks := [("eth0", { rxBytes := 1048576, txBytes := 524288 })] }

/-- A concrete snapshot whose CPU counters are both zero, as a daemon may
report for a container at rest right after start. -/
def statsZeroCounters : StatsJSON :=
  { cpuStats := { cpuUsage := { totalUsage := 0 }, systemUsage := 0 }
    memoryStats := { usage := 0, limit := 0 }
    networks := [("eth0", { rxBytes := 0, txBytes := 0 })] }

/-- C2 (code bug): on a snapshot whose network map has no `eth0` entry the
derivation succeeds and reports zero receive and transmit megabytes — the
Go map read yields the zero value for a missing key — instead of failing
with an explicit error as the specification requires. -/
theorem getStats_missing_eth0_reports_zero :
    statsNoEth0.networks.find? (fun p => p.fst == "eth0") = none ∧
    (GetStats statsNoEth0).networkRxMB = .finite 0 ∧
    (GetStats statsNoEth0).networkTxMB = .finite 0 := by
  refine ⟨rfl, ?_, ?_⟩ <;>
    simp [GetStats, goMapLookupNetwork, statsNoEth0, GoFloat.div, GoFloat.ofNat]

/-- C6: whenever the system CPU usage counter is nonzero, the CPU
percentage derived by `GetStats` equals the spec formula, total usage delta
over system usage delta times 100, and the memory used/limit megabyte
figures equal the spec formula, raw byte counter divided by 1,048,576. -/
theorem getStats_formula (stats : StatsJSON)
    (h : stats.cpuStats.systemUsage ≠ 0) :
    (GetStats stats).cpu =
      .finite (cpuPercentSpec stats.cpuStats.cpuUsage.totalUsage
        stats.cpuStats.systemUsage) ∧
    (GetStats stats).memoryUsageMB = .finite (bytesToMBSpec stats.memoryStats.usage) ∧
    (GetStats stats).memoryLimitMB = .finite (bytesToMBSpec stats.memoryStats.limit) := by
  have hq : (stats.cpuStats.systemUsage : ℚ) ≠ 0 := Nat.cast_ne_zero.mpr h
  refine ⟨?_, ?_, ?_⟩ <;>
    simp [GetStats, GoFloat.div, GoFloat.mul, GoFloat.ofNat, cpuPercentSpec,
      bytesToMBSpec, hq]

/-- Witness for C6 at the concrete demo snapshot. -/
theorem getStats_formula_witness :
    statsDemo.cpuStats.systemUsage ≠ 0 ∧
    ((GetStats statsDemo).cpu =
        .finite (cpuPercentSpec statsDemo.cpuStats.cpuUsage.totalUsage
          statsDemo.cpuStats.systemUsage) ∧
      (GetStats statsDemo).memoryUsageMB =
        .finite (bytesToMBSpec statsDemo.memoryStats.usage) ∧
      (GetStats statsDemo).memoryLimitMB =
        .finite (bytesToMBSpec statsDemo.memoryStats.limit)) :=
  ⟨by decide, getStats_formula statsDemo (by decide)⟩

/-- Counterexample to C7: on the snapshot whose two CPU counters are both
present and equal to zero the derived CPU value is NaN, so the computation
is not NaN-free when the system usage counter is zero. -/
theorem getStats_cpu_nan_counterexample :
    (GetStats statsZeroCounters).cpu = GoFloat.nan := by
  simp [GetStats, statsZeroCounters, GoFloat.div, GoFloat.mul, GoFloat.ofNat]

/-- C7 amended: when the system CPU usage counter is positive and the total
CPU usage counter does not exceed it, the CPU percentage is a finite value
in [0, 100] — hence within [0, 100 × number-of-cores] — and is never NaN;
when the system counter is zero the computation instead yields NaN (both
counters zero) or a signed infinity. -/
theorem getStats_cpu_bounded (stats : StatsJSON)
    (hpos : 0 < stats.cpuStats.systemUsage)
    (hle : stats.cpuStats.cpuUsage.totalUsage ≤ stats.cpuStats.systemUsage) :
    ∃ q : ℚ, (GetStats stats).cpu = .finite q ∧ 0 ≤ q ∧ q ≤ 100 := by
  have hq : (stats.cpuStats.systemUsage : ℚ) ≠ 0 := by
    exact_mod_cast hpos.ne'
  refine ⟨((stats.cpuStats.cpuUsage.totalUsage : ℚ) /
      (stats.cpuStats.systemUsage : ℚ)) * 100, ?_, ?_, ?_⟩
  · simp [GetStats, GoFloat.div, GoFloat.mul, GoFloat.ofNat, hq]
  · positivity
  · have hfrac : (stats.cpuStats.cpuUsage.totalUsage : ℚ) /
        (stats.cpuStats.systemUsage : ℚ) ≤ 1 := by
      rw [div_le_one (by exact_mod_cast hpos)]
      exact_mod_cast hle
    calc ((stats.cpuStats.cpuUsage.totalUsage : ℚ) /
          (stats.cpuStats.systemUsage : ℚ)) * 100
        ≤ 1 * 100 := by
          exact mul_le_mul_of_nonneg_right hfrac (by norm_num)
      _ = 100 := by norm_num

/-- Witness for C7 amended at the concrete demo snapshot. -/
theorem getStats_cpu_bounded_witness :
    ∃ q : ℚ, (GetStats statsDemo).cpu = .finite q ∧ 0 ≤ q ∧ q ≤ 100 :=
  getStats_cpu_bounded statsDemo (by decide) (by decide)

end Devops
